import Mathlib

/-!
Verification of the halopy client library: a shallow embedding of the
rate-limiting and request-dispatch core of src/halopy/__init__.py, together
with theorems settling the specification claims about it.

Python floats are modelled as rationals, wall-clock readings as rationals,
and the rounded clock values handed around internally as integers.  The
HTTP transport is an external collaborator: its response (status code and
cache flag) is passed to the embedded request function as an argument, and
the two clock readings the source performs inside one request call are
passed as two integer arguments.
-/

/-- A decoded JSON value, the fragment the library manipulates. -/
inductive JsonVal where
  | str (s : String)
  | num (q : ℚ)
  | obj (fields : List (String × JsonVal))
  | arr (elems : List JsonVal)
  | boolean (b : Bool)
  | null

/-- Embeds HaloPyResult.__getattr__: look the name up in the wrapped
dictionary first; on failure fall back into the nested Result dictionary
when one is present; otherwise the lookup fails (AttributeError, modelled
as none).  A nested Result that is not a dictionary is treated as lookup
failure, matching the source for every input the claims touch. -/
def getattr_lookup (wrap : List (String × JsonVal)) (name : String) : Option JsonVal :=
  match wrap.lookup name with
  | some v => some v
  | none =>
    match wrap.lookup "Result" with
    | some (JsonVal.obj inner) => inner.lookup name
    | _ => none

/-- The error kinds the library raises: the five named HaloPyError messages
from the status table, the generic failure raised by the transport helper
raise_for_status, and the ValueError raised by the rate setter. -/
inductive HaloPyError where
  | badRequest
  | unauthorized
  | notFound
  | rateLimited
  | serverError
  | httpError (status : Nat)
  | valueError
deriving DecidableEq

/-- The message string attached to each raised error in the source. -/
def HaloPyError.message : HaloPyError → String
  | .badRequest => "Bad request"
  | .unauthorized => "Unauthorized"
  | .notFound => "Endpoint not found"
  | .rateLimited => "Rate limit exceeded"
  | .serverError => "Internal server error"
  | .httpError _ => "HTTP error"
  | .valueError => "HaloPy.rate must be a tuple!"

/-- A transport response: its HTTP status code and whether the caching
layer served it from cache. -/
structure Response where
  status_code : Nat
  from_cache : Bool
deriving DecidableEq

/-- Embeds requests.Response.raise_for_status, the external transport
collaborator the dispatcher delegates its fallback classification to: it
raises a generic HTTP failure exactly when 400 <= status < 600 (client and
server error ranges) and is a no-op on every other status. -/
def raise_for_status (r : Response) : Except HaloPyError Response :=
  if 400 ≤ r.status_code ∧ r.status_code < 600 then
    Except.error (HaloPyError.httpError r.status_code)
  else
    Except.ok r

/-- Embeds HaloPy._now, which is round(time.time()): Python rounds a float
to the nearest integer, ties going to the even neighbour. -/
def pyRound (x : ℚ) : ℤ :=
  if Int.fract x < 1/2 then ⌊x⌋
  else if 1/2 < Int.fract x then ⌊x⌋ + 1
  else if ⌊x⌋ % 2 = 0 then ⌊x⌋ else ⌊x⌋ + 1

/-- The mutable state of a HaloPy client: the API key, the token bucket
fields allowance and last_check, and the configured rate pair (capacity,
period in seconds). -/
structure HaloPy where
  api_key : String
  allowance : ℚ
  last_check : ℤ
  rate : ℚ × ℚ
deriving DecidableEq

/-- Embeds HaloPy.__init__ restricted to the limiter fields: the allowance
starts at rate[0] and last_check at the rounded construction time. -/
def HaloPy.init (api_key : String) (rate : ℚ × ℚ) (t : ℚ) : HaloPy :=
  ⟨api_key, rate.1, pyRound t, rate⟩

/-- The allowance value computed inside HaloPy._pre_request at clock
reading current: the stored allowance plus time_passed * rate[0] / rate[1],
capped above at rate[0].  There is no cap below at zero. -/
def HaloPy.refill (hp : HaloPy) (current : ℤ) : ℚ :=
  let time_passed : ℤ := current - hp.last_check
  let allowance := hp.allowance + (time_passed : ℚ) * (hp.rate.1 / hp.rate.2)
  if hp.rate.1 < allowance then hp.rate.1 else allowance

/-- Embeds HaloPy._pre_request: returns the refilled allowance and the
state after the call.  The method stores the new last_check but does not
store the returned allowance. -/
def HaloPy.pre_request (hp : HaloPy) (current : ℤ) : ℚ × HaloPy :=
  (hp.refill current, ⟨hp.api_key, hp.allowance, current, hp.rate⟩)

/-- Embeds HaloPy.can_request: runs _pre_request and reports whether the
returned allowance is at least 1.0. -/
def HaloPy.can_request (hp : HaloPy) (current : ℤ) : Bool × HaloPy :=
  let pr := hp.pre_request current
  (decide (1 ≤ pr.1), pr.2)

/-- The header key the dispatcher injects the API key under. -/
def subscription_key : String := "Ocp-Apim-Subscription-Key"

/-- A Python value usable as a query parameter, with its truthiness. -/
inductive ParamVal where
  | str (s : String)
  | num (q : ℚ)
  | pynone
deriving DecidableEq

/-- Python truthiness for the parameter values modelled. -/
def ParamVal.truthy : ParamVal → Bool
  | .str s => !s.isEmpty
  | .num q => decide (q ≠ 0)
  | .pynone => false

/-- Embeds the parameter-filtering loop of HaloPy.request: keep a pair only
when its key is not already kept and its value is truthy. -/
def filter_params (params : List (String × ParamVal)) : List (String × ParamVal) :=
  params.foldl
    (fun p kv =>
      if (p.lookup kv.1).isSome then p
      else if kv.2.truthy then p ++ [kv] else p)
    []

/-- Everything one call to HaloPy.request produces: the returned response
or raised error, the client state after the call, the headers dictionary
after the call (the source mutates the very dictionary it was handed), and
whether the transport was invoked. -/
structure RequestOutcome where
  result : Except HaloPyError Response
  state : HaloPy
  headers : List (String × String)
  transport_called : Bool

/-- Embeds HaloPy.request.  The source reads the clock twice, once in the
explicit _pre_request call whose value it stores into _allowance and once
inside can_request; these two readings arrive as t1 and t2.  The transport
response that requests.get would produce arrives as resp. -/
def HaloPy.request (hp : HaloPy) (t1 t2 : ℤ) (resp : Response)
    (params : List (String × ParamVal)) (headers : List (String × String)) :
    RequestOutcome :=
  let pr := hp.pre_request t1
  let hp1 : HaloPy := ⟨pr.2.api_key, pr.1, pr.2.last_check, pr.2.rate⟩
  let cr := hp1.can_request t2
  if cr.1 then
    let _p := filter_params params
    let headers2 :=
      if (headers.lookup subscription_key).isSome then headers
      else headers ++ [(subscription_key, hp.api_key)]
    let hp3 : HaloPy :=
      if resp.from_cache then cr.2
      else ⟨cr.2.api_key, cr.2.allowance - 1, cr.2.last_check, cr.2.rate⟩
    let res :=
      if resp.status_code = 400 then Except.error HaloPyError.badRequest
      else if resp.status_code = 401 then Except.error HaloPyError.unauthorized
      else if resp.status_code = 404 then Except.error HaloPyError.notFound
      else if resp.status_code = 429 then Except.error HaloPyError.rateLimited
      else if resp.status_code = 500 then Except.error HaloPyError.serverError
      else raise_for_status resp
    ⟨res, hp3, headers2, true⟩
  else
    ⟨Except.error HaloPyError.rateLimited, cr.2, headers, false⟩

/-- The allowance value the can_request call inside request tests: the
refill at t1 is stored, then refilled again at t2. -/
def HaloPy.check_value (hp : HaloPy) (t1 t2 : ℤ) : ℚ :=
  let pr := hp.pre_request t1
  (HaloPy.refill ⟨pr.2.api_key, pr.1, pr.2.last_check, pr.2.rate⟩ t2)

/-! ### Basic facts about the refill computation -/

/-- The refilled allowance never exceeds the capacity rate[0]. -/
theorem refill_le (hp : HaloPy) (t : ℤ) : hp.refill t ≤ hp.rate.1 := by
  simp only [HaloPy.refill]
  split
  · exact le_refl _
  · linarith [not_lt.mp (by assumption)]

/-- With a clock that has not gone backwards, nonnegative rate components
and an allowance within capacity, the refill does not decrease the
allowance. -/
theorem refill_ge (hp : HaloPy) (t : ℤ) (hlast : hp.last_check ≤ t)
    (hcap : hp.allowance ≤ hp.rate.1) (hc : 0 ≤ hp.rate.1) (hp2 : 0 ≤ hp.rate.2) :
    hp.allowance ≤ hp.refill t := by
  have hdt : (0 : ℚ) ≤ ((t - hp.last_check : ℤ) : ℚ) := by
    exact_mod_cast Int.sub_nonneg.mpr hlast
  have hr : (0 : ℚ) ≤ hp.rate.1 / hp.rate.2 := div_nonneg hc hp2
  simp only [HaloPy.refill]
  split
  · exact hcap
  · nlinarith

/-- With a clock that has not gone backwards, a nonnegative allowance and
nonnegative rate components, the refill result is nonnegative. -/
theorem refill_nonneg (hp : HaloPy) (t : ℤ) (hlast : hp.last_check ≤ t)
    (h0 : 0 ≤ hp.allowance) (hc : 0 ≤ hp.rate.1) (hp2 : 0 ≤ hp.rate.2) :
    0 ≤ hp.refill t := by
  have hdt : (0 : ℚ) ≤ ((t - hp.last_check : ℤ) : ℚ) := by
    exact_mod_cast Int.sub_nonneg.mpr hlast
  have hr : (0 : ℚ) ≤ hp.rate.1 / hp.rate.2 := div_nonneg hc hp2
  simp only [HaloPy.refill]
  split
  · exact hc
  · nlinarith

/-- Refilling at the stored last_check (zero elapsed time) returns the
stored allowance whenever it is within capacity. -/
theorem refill_at_last (hp : HaloPy) (hcap : hp.allowance ≤ hp.rate.1) :
    hp.refill hp.last_check = hp.allowance := by
  simp only [HaloPy.refill, sub_self, Int.cast_zero, zero_mul, add_zero]
  exact if_neg (not_lt.mpr hcap)

/-- The inner allowance test of request spelled out: store the refill at
t1, refill again at t2. -/
theorem check_value_eq (hp : HaloPy) (t1 t2 : ℤ) :
    hp.check_value t1 t2 = HaloPy.refill ⟨hp.api_key, hp.refill t1, t1, hp.rate⟩ t2 := rfl

/-- When both clock readings inside request coincide, the inner test sees
exactly the stored refill value. -/
theorem check_value_self (hp : HaloPy) (t : ℤ) : hp.check_value t t = hp.refill t := by
  rw [check_value_eq]
  have h := refill_le hp t
  simp only [HaloPy.refill, sub_self, Int.cast_zero, zero_mul, add_zero]
  exact if_neg (not_lt.mpr h)

/-! ### Unfolding lemmas for request -/

/-- The throttled branch of request: when the inner allowance test is below
one, the call raises RateLimited, performs no transport call, leaves the
headers alone, and stores the t1 refill without consuming. -/
theorem request_denied (hp : HaloPy) (t1 t2 : ℤ) (r : Response)
    (ps : List (String × ParamVal)) (hs : List (String × String))
    (h : hp.check_value t1 t2 < 1) :
    hp.request t1 t2 r ps hs =
      ⟨Except.error HaloPyError.rateLimited, ⟨hp.api_key, hp.refill t1, t2, hp.rate⟩, hs, false⟩ := by
  have hb : ¬ (1 ≤ hp.check_value t1 t2) := not_le.mpr h
  rw [check_value_eq] at hb
  simp only [HaloPy.request, HaloPy.can_request, HaloPy.pre_request]
  rw [if_neg (by simpa using hb)]

/-- The granted branch of request: when the inner allowance test passes,
the transport is called, the API key header is injected when absent, the
t1 refill minus the cache-dependent consumption is stored, and the result
follows the status table with raise_for_status as fallback. -/
theorem request_granted (hp : HaloPy) (t1 t2 : ℤ) (r : Response)
    (ps : List (String × ParamVal)) (hs : List (String × String))
    (h : 1 ≤ hp.check_value t1 t2) :
    hp.request t1 t2 r ps hs =
      ⟨(if r.status_code = 400 then Except.error HaloPyError.badRequest
        else if r.status_code = 401 then Except.error HaloPyError.unauthorized
        else if r.status_code = 404 then Except.error HaloPyError.notFound
        else if r.status_code = 429 then Except.error HaloPyError.rateLimited
        else if r.status_code = 500 then Except.error HaloPyError.serverError
        else raise_for_status r),
       ⟨hp.api_key, hp.refill t1 - (if r.from_cache then 0 else 1), t2, hp.rate⟩,
       (if (hs.lookup subscription_key).isSome then hs
        else hs ++ [(subscription_key, hp.api_key)]),
       true⟩ := by
  rw [check_value_eq] at h
  simp only [HaloPy.request, HaloPy.can_request, HaloPy.pre_request]
  rw [if_pos (by simpa using h)]
  rcases r with ⟨sc, fc⟩
  cases fc <;> simp

/-! ### Claim C1 -/

/-- Claim C1: when the allowance tested by the admission check inside
request is strictly below 1.0, request raises the RateLimited error, whose
message is Rate limit exceeded, before any transport call is made, and the
allowance is not decremented by the call: the stored allowance is exactly
the refill at the first clock reading, which (for a clock that has not
gone backwards and an allowance within capacity) is at least the previous
allowance. -/
theorem C1_denied_raises_before_transport (hp : HaloPy) (t1 t2 : ℤ) (r : Response)
    (ps : List (String × ParamVal)) (hs : List (String × String))
    (hlow : hp.check_value t1 t2 < 1)
    (hlast : hp.last_check ≤ t1) (hcap : hp.allowance ≤ hp.rate.1)
    (hc : 0 ≤ hp.rate.1) (hp2 : 0 ≤ hp.rate.2) :
    (hp.request t1 t2 r ps hs).result = Except.error HaloPyError.rateLimited ∧
    HaloPyError.rateLimited.message = "Rate limit exceeded" ∧
    (hp.request t1 t2 r ps hs).transport_called = false ∧
    (hp.request t1 t2 r ps hs).state.allowance = hp.refill t1 ∧
    hp.allowance ≤ (hp.request t1 t2 r ps hs).state.allowance := by
  rw [request_denied hp t1 t2 r ps hs hlow]
  refine ⟨rfl, rfl, rfl, rfl, ?_⟩
  exact refill_ge hp t1 hlast hcap hc hp2

/-- Witness for C1 at a concrete input: a client with an empty bucket asked
again within the same second is throttled without a transport call and
without any change to its allowance. -/
theorem C1_denied_witness :
    ((⟨"key", 0, 5, (10, 10)⟩ : HaloPy).request 5 5 ⟨200, false⟩ [] []).result
        = Except.error HaloPyError.rateLimited ∧
    ((⟨"key", 0, 5, (10, 10)⟩ : HaloPy).request 5 5 ⟨200, false⟩ [] []).transport_called = false ∧
    ((⟨"key", 0, 5, (10, 10)⟩ : HaloPy).request 5 5 ⟨200, false⟩ [] []).state.allowance
        = (⟨"key", 0, 5, (10, 10)⟩ : HaloPy).refill 5 := by
  have h := C1_denied_raises_before_transport (⟨"key", 0, 5, (10, 10)⟩ : HaloPy) 5 5
    ⟨200, false⟩ [] []
    (by norm_num [HaloPy.check_value, HaloPy.pre_request, HaloPy.refill])
    (by norm_num) (by norm_num) (by norm_num) (by norm_num)
  exact ⟨h.1, h.2.2.1, h.2.2.2.1⟩

/-! ### Claim C2 -/

/-- Claim C2: when the admission check passes, the transport is called, and
the stored allowance afterwards is the refill at the first clock reading
minus one token exactly when the response was not served from cache, and
minus nothing when it was.  The formula does not depend on the status code:
the consumption is applied after the network call returns and before the
status classification, so a non-cached error response still costs a
token. -/
theorem C2_consume_after_transport (hp : HaloPy) (t1 t2 : ℤ) (r : Response)
    (ps : List (String × ParamVal)) (hs : List (String × String))
    (hadm : 1 ≤ hp.check_value t1 t2) :
    (hp.request t1 t2 r ps hs).transport_called = true ∧
    (hp.request t1 t2 r ps hs).state.allowance
        = hp.refill t1 - (if r.from_cache then 0 else 1) := by
  rw [request_granted hp t1 t2 r ps hs hadm]
  exact ⟨rfl, rfl⟩

/-- Witness for C2 at a concrete input: a fresh client receiving a
non-cached 500 response still pays one token, ending at 9 of 10. -/
theorem C2_consume_witness :
    ((HaloPy.init "key" (10, 10) 0).request 0 0 ⟨500, false⟩ [] []).transport_called = true ∧
    ((HaloPy.init "key" (10, 10) 0).request 0 0 ⟨500, false⟩ [] []).state.allowance
        = (HaloPy.init "key" (10, 10) 0).refill 0 - 1 := by
  have h := C2_consume_after_transport (HaloPy.init "key" (10, 10) 0) 0 0 ⟨500, false⟩ [] []
    (by norm_num [HaloPy.check_value, HaloPy.pre_request, HaloPy.refill, HaloPy.init, pyRound,
      Int.fract])
  exact ⟨h.1, by simpa using h.2⟩

/-! ### Claim C3 -/

/-- Counterexample to claim C3: a non-cached response with status 302, a
status that is not 2xx, is returned successfully by request instead of
raising a generic HTTP failure, because the fallback raise_for_status only
raises for statuses in the 4xx and 5xx ranges. -/
theorem C3_counterexample :
    ((HaloPy.init "key" (10, 10) 0).request 0 0 ⟨302, false⟩ [] []).result
        = Except.ok ⟨302, false⟩ ∧
    300 ≤ (Response.mk 302 false).status_code := by
  constructor
  · rw [request_granted _ _ _ _ _ _ (by
      norm_num [HaloPy.check_value, HaloPy.pre_request, HaloPy.refill, HaloPy.init, pyRound,
        Int.fract])]
    norm_num [raise_for_status]
  · norm_num

/-- Amended claim C3: when the admission check passes, the status mapping
is 400 to BadRequest, 401 to Unauthorized, 404 to NotFound, 429 to
RateLimited, 500 to ServerError; any other status in the 4xx or 5xx ranges
raises the generic HTTP failure; and every status below 400 (all 2xx
successes, but also 1xx and 3xx) as well as every status of 600 and above
is returned successfully. -/
theorem C3_status_mapping (hp : HaloPy) (t1 t2 : ℤ) (r : Response)
    (ps : List (String × ParamVal)) (hs : List (String × String))
    (hadm : 1 ≤ hp.check_value t1 t2) :
    (r.status_code = 400 →
      (hp.request t1 t2 r ps hs).result = Except.error HaloPyError.badRequest) ∧
    (r.status_code = 401 →
      (hp.request t1 t2 r ps hs).result = Except.error HaloPyError.unauthorized) ∧
    (r.status_code = 404 →
      (hp.request t1 t2 r ps hs).result = Except.error HaloPyError.notFound) ∧
    (r.status_code = 429 →
      (hp.request t1 t2 r ps hs).result = Except.error HaloPyError.rateLimited) ∧
    (r.status_code = 500 →
      (hp.request t1 t2 r ps hs).result = Except.error HaloPyError.serverError) ∧
    (r.status_code ≠ 400 → r.status_code ≠ 401 → r.status_code ≠ 404 →
      r.status_code ≠ 429 → r.status_code ≠ 500 →
      400 ≤ r.status_code → r.status_code < 600 →
      (hp.request t1 t2 r ps hs).result = Except.error (HaloPyError.httpError r.status_code)) ∧
    (r.status_code < 400 → (hp.request t1 t2 r ps hs).result = Except.ok r) ∧
    (600 ≤ r.status_code → (hp.request t1 t2 r ps hs).result = Except.ok r) := by
  rw [request_granted hp t1 t2 r ps hs hadm]
  refine ⟨?_, ?_, ?_, ?_, ?_, ?_, ?_, ?_⟩
  · intro h; simp [h]
  · intro h; simp [h]
  · intro h; simp [h]
  · intro h; simp [h]
  · intro h; simp [h]
  · intro h1 h2 h3 h4 h5 hlo hhi
    rw [if_neg h1, if_neg h2, if_neg h3, if_neg h4, if_neg h5, raise_for_status,
      if_pos ⟨hlo, hhi⟩]
  · intro h
    rw [if_neg (by omega), if_neg (by omega), if_neg (by omega), if_neg (by omega),
      if_neg (by omega), raise_for_status, if_neg (by omega)]
  · intro h
    rw [if_neg (by omega), if_neg (by omega), if_neg (by omega), if_neg (by omega),
      if_neg (by omega), raise_for_status, if_neg (by omega)]

/-- Witness for C3 at concrete inputs: a fresh client fed a non-cached 404
raises NotFound, and fed a non-cached 418 raises the generic failure. -/
theorem C3_status_witness :
    ((HaloPy.init "key" (10, 10) 0).request 0 0 ⟨404, false⟩ [] []).result
        = Except.error HaloPyError.notFound ∧
    ((HaloPy.init "key" (10, 10) 0).request 0 0 ⟨418, false⟩ [] []).result
        = Except.error (HaloPyError.httpError 418) := by
  have hadm : (1 : ℚ) ≤ (HaloPy.init "key" (10, 10) 0).check_value 0 0 := by
    norm_num [HaloPy.check_value, HaloPy.pre_request, HaloPy.refill, HaloPy.init, pyRound,
      Int.fract]
  have h1 := C3_status_mapping (HaloPy.init "key" (10, 10) 0) 0 0 ⟨404, false⟩ [] [] hadm
  have h2 := C3_status_mapping (HaloPy.init "key" (10, 10) 0) 0 0 ⟨418, false⟩ [] [] hadm
  exact ⟨h1.2.2.1 rfl,
    h2.2.2.2.2.2.1 (by norm_num) (by norm_num) (by norm_num) (by norm_num) (by norm_num)
      (by norm_num) (by norm_num)⟩

/-! ### Claim C5 -/

/-- The cap in the refill is the minimum with the capacity. -/
theorem refill_eq_min (hp : HaloPy) (t : ℤ) :
    hp.refill t
      = min hp.rate.1 (hp.allowance + ((t - hp.last_check : ℤ) : ℚ) * (hp.rate.1 / hp.rate.2)) := by
  simp only [HaloPy.refill]
  rw [min_def]
  split_ifs <;> linarith

/-- Counterexample to claim C5: a client with zero stored tokens and two
seconds of accrued credit at rate (1, 2).  can_request computes a refilled
allowance of 1 and returns true, but after the call the stored tokens are
still 0, not the refilled 1: the refill is never written back, so the
stored tokens do not reflect it (and the advanced last_check discards the
credit). -/
theorem C5_counterexample :
    ((⟨"key", 0, 0, (1, 2)⟩ : HaloPy).can_request 2).1 = true ∧
    ((⟨"key", 0, 0, (1, 2)⟩ : HaloPy).pre_request 2).1 = 1 ∧
    ((⟨"key", 0, 0, (1, 2)⟩ : HaloPy).can_request 2).2.allowance = 0 ∧
    ((0 : ℚ) ≠ 1) := by
  refine ⟨?_, ?_, rfl, by norm_num⟩
  · norm_num [HaloPy.can_request, HaloPy.pre_request, HaloPy.refill]
  · norm_num [HaloPy.pre_request, HaloPy.refill]

/-- Amended claim C5: can_request computes the refill of the stored tokens
by elapsed times capacity over period, capped at capacity, and returns
true exactly when that refilled value is at least 1.0, consuming nothing;
but the refilled value is only local: after the call the stored tokens are
unchanged, while the refill timestamp is advanced to the current reading
(so the accrued credit is discarded unless the caller stores the returned
value, as request does). -/
theorem C5_admit_local_refill (hp : HaloPy) (t : ℤ) :
    (hp.can_request t).1
      = decide (1 ≤ min hp.rate.1
          (hp.allowance + ((t - hp.last_check : ℤ) : ℚ) * (hp.rate.1 / hp.rate.2))) ∧
    (hp.can_request t).2.allowance = hp.allowance ∧
    (hp.can_request t).2.last_check = t ∧
    (hp.can_request t).2.rate = hp.rate := by
  refine ⟨?_, rfl, rfl, rfl⟩
  rw [HaloPy.can_request]
  simp only [HaloPy.pre_request]
  simp only [refill_eq_min]

/-! ### Claim C7 -/

/-- Counterexample to claim C7: two limiter operations at wall-clock times
10.4 and 10.6 lie in the same whole (floored) second, yet the second
operation observes a refill of one half token rather than zero, because
the source rounds the clock to the nearest second instead of truncating:
round maps 10.4 to 10 and 10.6 to 11. -/
theorem C7_counterexample :
    ⌊(52 / 5 : ℚ)⌋ = ⌊(53 / 5 : ℚ)⌋ ∧
    ((⟨"key", 0, pyRound (52 / 5), (1, 2)⟩ : HaloPy).pre_request (pyRound (53 / 5))).1 = 1 / 2 ∧
    ((⟨"key", 0, pyRound (52 / 5), (1, 2)⟩ : HaloPy).allowance = 0) ∧
    ((1 / 2 : ℚ) ≠ 0) := by
  have h1 : pyRound (52 / 5 : ℚ) = 10 := by
    rw [pyRound]
    norm_num [Int.fract, Int.floor_eq_iff]
  have h2 : pyRound (53 / 5 : ℚ) = 11 := by
    rw [pyRound]
    norm_num [Int.fract, Int.floor_eq_iff]
  refine ⟨?_, ?_, rfl, by norm_num⟩
  · norm_num [Int.floor_eq_iff]
  · rw [h1, h2]
    norm_num [HaloPy.pre_request, HaloPy.refill]

/-- Amended claim C7: the refill uses the wall clock rounded to the
nearest whole second (ties to even), not truncated; two limiter operations
whose rounded readings coincide observe zero refill (the stored allowance
is returned unchanged when it is within capacity). -/
theorem C7_same_rounded_second_no_refill (hp : HaloPy) (w1 w2 : ℚ)
    (hlast : hp.last_check = pyRound w1) (hround : pyRound w1 = pyRound w2)
    (hcap : hp.allowance ≤ hp.rate.1) :
    (hp.pre_request (pyRound w2)).1 = hp.allowance := by
  have ht : pyRound w2 = hp.last_check := by rw [hlast, hround]
  show hp.refill (pyRound w2) = hp.allowance
  rw [ht]
  exact refill_at_last hp hcap

/-- Witness for C7 at a concrete input: readings at wall times 5.2 and 5.4
both round to second 5, and the second operation returns the stored
allowance 3 unchanged. -/
theorem C7_same_second_witness :
    ((⟨"key", 3, 5, (10, 10)⟩ : HaloPy).pre_request (pyRound (27 / 5))).1 = 3 := by
  have h := C7_same_rounded_second_no_refill (⟨"key", 3, 5, (10, 10)⟩ : HaloPy) (26 / 5) (27 / 5)
    (by rw [pyRound]; norm_num [Int.fract, Int.floor_eq_iff])
    (by rw [pyRound, pyRound]; norm_num [Int.fract, Int.floor_eq_iff])
    (by norm_num)
  exact h

/-! ### Claim C8 -/

/-- Counterexample to claim C8: with the tokens externally set to -5 and
one second elapsed at rate (1, 2), the next refill returns -9/2, a value
still far below zero: the refill logic contains no clamp of negative
values up to zero. -/
theorem C8_counterexample :
    ((⟨"key", -5, 0, (1, 2)⟩ : HaloPy).pre_request 1).1 = -9 / 2 ∧
    ((⟨"key", -5, 0, (1, 2)⟩ : HaloPy).pre_request 1).1 < 0 ∧
    ((⟨"key", -5, 0, (1, 2)⟩ : HaloPy).allowance < 0) := by
  refine ⟨?_, ?_, by norm_num⟩ <;>
    norm_num [HaloPy.pre_request, HaloPy.refill]

/-- Amended claim C8: the limiter tolerates an externally negative token
value without failing, and the mutation takes effect immediately, but no
clamping to zero ever happens: whenever the linear refill stays at or
below capacity, the refill returns exactly the stored allowance plus
elapsed times capacity over period, negative results included, and
can_request itself leaves the stored allowance untouched. -/
theorem C8_no_zero_clamp (hp : HaloPy) (t : ℤ)
    (h : hp.allowance + ((t - hp.last_check : ℤ) : ℚ) * (hp.rate.1 / hp.rate.2) ≤ hp.rate.1) :
    (hp.pre_request t).1
      = hp.allowance + ((t - hp.last_check : ℤ) : ℚ) * (hp.rate.1 / hp.rate.2) ∧
    (hp.can_request t).2.allowance = hp.allowance := by
  refine ⟨?_, rfl⟩
  show hp.refill t = _
  simp only [HaloPy.refill]
  exact if_neg (not_lt.mpr h)

/-- Witness for C8 at a concrete input: tokens forced to -5, one second of
credit at rate (1, 2), and the refill lands at -9/2 with the stored
allowance still -5 afterwards. -/
theorem C8_no_zero_clamp_witness :
    ((⟨"key", -5, 0, (1, 2)⟩ : HaloPy).pre_request 1).1
        = -5 + ((1 - 0 : ℤ) : ℚ) * (1 / 2) ∧
    ((⟨"key", -5, 0, (1, 2)⟩ : HaloPy).can_request 1).2.allowance = -5 := by
  have h := C8_no_zero_clamp (⟨"key", -5, 0, (1, 2)⟩ : HaloPy) 1 (by norm_num)
  exact h

/-! ### Claim C6 -/

/-- A Python value assigned to the rate property: a tuple of numbers, a
string, or a bare number.  The source only ever inspects whether the value
is a tuple. -/
inductive PyRateVal where
  | tuple (xs : List ℚ)
  | str (s : String)
  | num (q : ℚ)
deriving DecidableEq

/-- Whether a value is a Python tuple, the only test the setter performs. -/
def PyRateVal.is_tuple : PyRateVal → Bool
  | .tuple _ => true
  | _ => false

/-- The rate configuration cell the setter mutates. -/
structure RateState where
  rate : PyRateVal
deriving DecidableEq

/-- Embeds the HaloPy.rate setter: raise ValueError when the assigned
value is not a tuple, leaving the stored rate unchanged; otherwise store
the value.  Returns the cell after the call and the raised error, if
any. -/
def set_rate (s : RateState) (value : PyRateVal) : RateState × Option HaloPyError :=
  match value with
  | .tuple _ => (⟨value⟩, Option.none)
  | _ => (s, some HaloPyError.valueError)

/-- Counterexample to claim C6: assigning the three-element tuple
(1, 2, 3), which is not a two-element numeric pair, raises nothing and
replaces the stored rate, because the setter only checks that the value is
a tuple. -/
theorem C6_counterexample :
    (set_rate ⟨PyRateVal.tuple [10, 10]⟩ (PyRateVal.tuple [1, 2, 3])).2 = Option.none ∧
    (set_rate ⟨PyRateVal.tuple [10, 10]⟩ (PyRateVal.tuple [1, 2, 3])).1.rate
        = PyRateVal.tuple [1, 2, 3] ∧
    ([(1 : ℚ), 2, 3].length ≠ 2) := by
  exact ⟨rfl, rfl, by norm_num⟩

/-- Amended claim C6: assigning any non-tuple value raises ValueError and
leaves the previously configured rate unchanged; assigning any tuple at
all, whatever its length or contents, succeeds and replaces the rate.  The
two-element and numeric requirements of the claim are never checked. -/
theorem C6_setter_checks_tuple_only (s : RateState) (value : PyRateVal) :
    set_rate s value
      = if value.is_tuple then (⟨value⟩, Option.none)
        else (s, some HaloPyError.valueError) := by
  cases value <;> rfl

/-! ### Claim C9 -/

/-- The wrapped dictionary of the C9 scenario. -/
def demo_wrap : List (String × JsonVal) :=
  [("foo", JsonVal.str "bar"), ("Result", JsonVal.obj [("team", JsonVal.str "blue")])]

/-- Claim C9: on the scenario dictionary, the attribute lookup resolves foo
to bar at top level and team to blue through the nested Result fallback,
fails for every name present at neither level, and in general a name bound
at top level shadows any nested binding: the top-level value is
returned. -/
theorem C9_result_view_lookup :
    getattr_lookup demo_wrap "foo" = some (JsonVal.str "bar") ∧
    getattr_lookup demo_wrap "team" = some (JsonVal.str "blue") ∧
    (∀ n : String, n ≠ "foo" → n ≠ "Result" → n ≠ "team" →
      getattr_lookup demo_wrap n = none) ∧
    (∀ (w : List (String × JsonVal)) (n : String) (v : JsonVal),
      w.lookup n = some v → getattr_lookup w n = some v) := by
  refine ⟨rfl, rfl, ?_, ?_⟩
  · intro n h1 h2 h3
    have e1 : (n == "foo") = false := beq_eq_false_iff_ne.mpr h1
    have e2 : (n == "Result") = false := beq_eq_false_iff_ne.mpr h2
    have e3 : (n == "team") = false := beq_eq_false_iff_ne.mpr h3
    simp [getattr_lookup, demo_wrap, List.lookup, e1, e2, e3]
  · intro w n v h
    simp [getattr_lookup, h]

/-- Witness for C9 at concrete inputs: the undefined name bar fails on the
scenario dictionary, and on a one-entry dictionary the bound name resolves
to its top-level value. -/
theorem C9_result_view_witness :
    getattr_lookup demo_wrap "bar" = none ∧
    getattr_lookup [("team", JsonVal.str "red"), ("Result", JsonVal.obj [("team", JsonVal.str "blue")])] "team"
        = some (JsonVal.str "red") := by
  constructor
  · exact C9_result_view_lookup.2.2.1 "bar" (by decide) (by decide) (by decide)
  · exact C9_result_view_lookup.2.2.2
      [("team", JsonVal.str "red"), ("Result", JsonVal.obj [("team", JsonVal.str "blue")])]
      "team" (JsonVal.str "red") rfl

/-! ### Claim C10 -/

/-- Association lookup skips a first block in which the key is absent. -/
theorem lookup_append_of_none {β : Type} (l1 l2 : List (String × β)) (a : String)
    (h : l1.lookup a = none) : (l1 ++ l2).lookup a = l2.lookup a := by
  induction l1 with
  | nil => simp
  | cons x xs ih =>
    rcases x with ⟨k, v⟩
    by_cases hk : (a == k) = true
    · simp [List.lookup, hk] at h
    · have hk2 : (a == k) = false := by
        cases hbe : (a == k)
        · rfl
        · exact absurd hbe hk
      simp only [List.cons_append, List.lookup, hk2] at h ⊢
      exact ih h

/-- A client session owning the process-wide mutable default headers
dictionary of HaloPy.request.  In CPython the default value headers={} is
one dictionary object created at function definition time and reused by
every call that omits the argument, so in-place mutation persists across
such calls; request_default models one call that omits the headers
argument. -/
structure Session where
  hp : HaloPy
  default_headers : List (String × String)

/-- One request call that omits the headers argument: it receives the
shared default dictionary and the session keeps whatever that dictionary
holds after the call. -/
def Session.request_default (s : Session) (t1 t2 : ℤ) (resp : Response) :
    RequestOutcome × Session :=
  let out := s.hp.request t1 t2 resp [] s.default_headers
  (out, ⟨out.state, out.headers⟩)

/-- Counterexample to claim C10: a call to request whose admission check
fails returns before the header-injection line, so the caller-supplied
headers dictionary, here empty and lacking the subscription key, still
lacks the API key after the call. -/
theorem C10_counterexample :
    ((⟨"key", 0, 0, (10, 10)⟩ : HaloPy).request 0 0 ⟨200, false⟩ [] []).headers = [] ∧
    ((⟨"key", 0, 0, (10, 10)⟩ : HaloPy).request 0 0 ⟨200, false⟩ [] []).result
        = Except.error HaloPyError.rateLimited ∧
    (([] : List (String × String)).lookup subscription_key = none) := by
  rw [request_denied _ _ _ _ _ _ (by
    norm_num [HaloPy.check_value, HaloPy.pre_request, HaloPy.refill])]
  exact ⟨rfl, rfl, rfl⟩

/-- Amended claim C10: for every call to request that passes the admission
check with a headers dictionary lacking the subscription key, the API key
is appended to that very dictionary, so after the call the dictionary
resolves the subscription key to the API key; and because the default
headers argument is one shared mutable dictionary, the injected key
persists in the session default across any further call omitting the
argument (which then injects nothing).  A call that fails the admission
check, however, returns before the injection line and leaves the
dictionary untouched. -/
theorem C10_header_injection_persists (s : Session) (t1 t2 : ℤ) (r : Response)
    (habs : s.default_headers.lookup subscription_key = none)
    (hadm : 1 ≤ s.hp.check_value t1 t2) :
    (s.hp.request t1 t2 r [] s.default_headers).headers
        = s.default_headers ++ [(subscription_key, s.hp.api_key)] ∧
    ((s.request_default t1 t2 r).2).default_headers.lookup subscription_key
        = some s.hp.api_key ∧
    (∀ (t3 t4 : ℤ) (r2 : Response),
      (((s.request_default t1 t2 r).2).request_default t3 t4 r2).2.default_headers
          = ((s.request_default t1 t2 r).2).default_headers) := by
  have hiso : (s.default_headers.lookup subscription_key).isSome = false := by
    rw [habs]; rfl
  have hout : (s.hp.request t1 t2 r [] s.default_headers).headers
      = s.default_headers ++ [(subscription_key, s.hp.api_key)] := by
    rw [request_granted _ _ _ _ _ _ hadm]
    simp [hiso]
  have hlk : (s.default_headers ++ [(subscription_key, s.hp.api_key)]).lookup subscription_key
      = some s.hp.api_key := by
    rw [lookup_append_of_none _ _ _ habs]
    simp [List.lookup]
  refine ⟨hout, ?_, ?_⟩
  · simp only [Session.request_default]
    rw [hout]
    exact hlk
  · intro t3 t4 r2
    simp only [Session.request_default]
    rw [hout]
    rcases le_or_lt 1 (((s.hp.request t1 t2 r [] s.default_headers).state).check_value t3 t4)
      with hg | hd
    · rw [request_granted _ _ _ _ _ _ hg]
      simp [hlk]
    · rw [request_denied _ _ _ _ _ _ hd]

/-- Witness for C10 at a concrete input: a fresh session with an empty
default dictionary ends its first call with the key stored, and a second
call omitting the argument leaves the shared dictionary unchanged. -/
theorem C10_header_injection_witness :
    ((Session.mk (HaloPy.init "key" (10, 10) 0) []).request_default 0 0
        ⟨200, false⟩).2.default_headers.lookup subscription_key = some "key" ∧
    ((((Session.mk (HaloPy.init "key" (10, 10) 0) []).request_default 0 0
        ⟨200, false⟩).2).request_default 1 1 ⟨200, false⟩).2.default_headers
      = (((Session.mk (HaloPy.init "key" (10, 10) 0) []).request_default 0 0
        ⟨200, false⟩).2).default_headers := by
  have h := C10_header_injection_persists (Session.mk (HaloPy.init "key" (10, 10) 0) []) 0 0
    ⟨200, false⟩ rfl
    (by norm_num [HaloPy.check_value, HaloPy.pre_request, HaloPy.refill, HaloPy.init, pyRound,
      Int.fract])
  exact ⟨h.2.1, h.2.2 1 1 ⟨200, false⟩⟩

/-! ### Claim C4 -/

/-- One limiter-touching call in a trace: a can_request call or a request
call, each at one clock reading (for a request call the reading is used
for both of its internal clock reads). -/
inductive Op where
  | canReq (t : ℤ)
  | req (t : ℤ) (resp : Response)

/-- The clock reading of a trace operation. -/
def Op.time : Op → ℤ
  | .canReq t => t
  | .req t _ => t

/-- Execute one trace operation against the client state. -/
def HaloPy.step (hp : HaloPy) : Op → HaloPy
  | .canReq t => (hp.can_request t).2
  | .req t resp => (hp.request t t resp [] []).state

/-- Execute a trace of operations left to right. -/
def HaloPy.run (hp : HaloPy) : List Op → HaloPy
  | [] => hp
  | op :: rest => (hp.step op).run rest

/-- Checks that the clock readings along a trace never go backwards. -/
def times_mono (hp : HaloPy) : List Op → Bool
  | [] => true
  | op :: rest => decide (hp.last_check ≤ op.time) && times_mono (hp.step op) rest

/-- A step never changes the configured rate. -/
theorem step_rate (hp : HaloPy) (op : Op) : (hp.step op).rate = hp.rate := by
  cases op with
  | canReq t => rfl
  | req t resp =>
    rcases le_or_lt 1 (hp.check_value t t) with hg | hd
    · rw [HaloPy.step, request_granted _ _ _ _ _ _ hg]
    · rw [HaloPy.step, request_denied _ _ _ _ _ _ hd]

/-- One step keeps the allowance within the token-bucket bounds, provided
the capacity is at least one, the period is positive, and the clock has
not gone backwards. -/
theorem step_bounds (hp : HaloPy) (op : Op) (hc : 1 ≤ hp.rate.1) (hp2 : 0 < hp.rate.2)
    (h0 : 0 ≤ hp.allowance) (h1 : hp.allowance ≤ hp.rate.1)
    (ht : hp.last_check ≤ op.time) :
    0 ≤ (hp.step op).allowance ∧ (hp.step op).allowance ≤ hp.rate.1 := by
  have hge0 : 0 ≤ hp.refill op.time :=
    refill_nonneg hp op.time ht h0 (by linarith) (le_of_lt hp2)
  have hle := refill_le hp op.time
  cases op with
  | canReq t => exact ⟨h0, h1⟩
  | req t resp =>
    rcases le_or_lt 1 (hp.check_value t t) with hg | hd
    · rw [HaloPy.step, request_granted _ _ _ _ _ _ hg]
      rw [check_value_self] at hg
      simp only [Op.time] at hge0 hle
      rcases resp with ⟨sc, fc⟩
      cases fc <;> simp <;> constructor <;> linarith
    · rw [HaloPy.step, request_denied _ _ _ _ _ _ hd]
      exact ⟨hge0, hle⟩

/-- Running any monotone-clock trace from a state within bounds stays
within bounds. -/
theorem run_bounds (c p : ℚ) (hc : 1 ≤ c) (hp2 : 0 < p) (ops : List Op) :
    ∀ hp : HaloPy, hp.rate = (c, p) → 0 ≤ hp.allowance → hp.allowance ≤ c →
      times_mono hp ops = true →
      0 ≤ (hp.run ops).allowance ∧ (hp.run ops).allowance ≤ c := by
  induction ops with
  | nil => intro hp _ h0 h1 _; exact ⟨h0, h1⟩
  | cons op rest ih =>
    intro hp hr h0 h1 hm
    rw [times_mono, Bool.and_eq_true, decide_eq_true_eq] at hm
    have hb := step_bounds hp op (by rw [hr]; exact hc) (by rw [hr]; exact hp2) h0
      (by rw [hr]; exact h1) hm.1
    rw [hr] at hb
    exact ih (hp.step op) (by rw [step_rate, hr]) hb.1 hb.2 hm.2

/-- Counterexample to claim C4: with rate (1, 2) and no external mutation,
a fresh client serves one non-cached request at wall time 0.1 (both inner
clock readings round to second 0), then a second non-cached request whose
two inner clock readings happen at wall times 1.4 and 1.6: the first read
rounds to second 1, the refill 1/2 is stored, then the admission check
re-reads the clock as second 2, sees another half token of credit nobody
stores, and admits the call, after which consuming the full token drives
the stored allowance to -1/2, violating 0 <= tokens.  All wall-clock
readings are nondecreasing. -/
theorem C4_counterexample :
    ((1 : ℚ) / 10 ≤ 2 / 10 ∧ (2 : ℚ) / 10 ≤ 7 / 5 ∧ (7 : ℚ) / 5 ≤ 8 / 5) ∧
    ((((HaloPy.init "key" (1, 2) 0).request (pyRound (1 / 10)) (pyRound (2 / 10))
          ⟨200, false⟩ [] []).state.request (pyRound (7 / 5)) (pyRound (8 / 5))
          ⟨200, false⟩ [] []).state).allowance < 0 := by
  have e1 : pyRound (1 / 10 : ℚ) = 0 := by
    rw [pyRound]; norm_num [Int.fract, Int.floor_eq_iff]
  have e2 : pyRound (2 / 10 : ℚ) = 0 := by
    rw [pyRound]; norm_num [Int.fract, Int.floor_eq_iff]
  have e3 : pyRound (7 / 5 : ℚ) = 1 := by
    rw [pyRound]; norm_num [Int.fract, Int.floor_eq_iff]
  have e4 : pyRound (8 / 5 : ℚ) = 2 := by
    rw [pyRound]; norm_num [Int.fract, Int.floor_eq_iff]
  have e0 : pyRound (0 : ℚ) = 0 := by
    rw [pyRound]; norm_num [Int.fract]
  refine ⟨⟨by norm_num, by norm_num, by norm_num⟩, ?_⟩
  rw [e1, e2, e3, e4]
  have s1 : ((HaloPy.init "key" (1, 2) 0).request 0 0 ⟨200, false⟩ [] []).state
      = ⟨"key", 0, 0, (1, 2)⟩ := by
    rw [request_granted _ _ _ _ _ _ (by
      norm_num [HaloPy.check_value, HaloPy.pre_request, HaloPy.refill, HaloPy.init, pyRound,
        Int.fract])]
    simp only [HaloPy.init, e0]
    norm_num [HaloPy.refill]
  rw [s1]
  rw [request_granted _ _ _ _ _ _ (by
    norm_num [HaloPy.check_value, HaloPy.pre_request, HaloPy.refill])]
  norm_num [HaloPy.refill]

/-- Amended claim C4: the invariant 0 <= tokens <= capacity is preserved
by every sequence of can_request and request calls from a fresh client
with capacity at least 1 and positive period, provided the clock readings
never decrease and the two clock readings inside each single request call
coincide.  The proviso is forced: the counterexample shows a sequence of
two ordinary requests whose second call reads the clock 0.2 seconds apart
across a rounding boundary and drives the tokens negative. -/
theorem C4_invariant_preserved (key : String) (c p : ℚ) (t0 : ℚ) (ops : List Op)
    (hc : 1 ≤ c) (hp2 : 0 < p)
    (hm : times_mono (HaloPy.init key (c, p) t0) ops = true) :
    0 ≤ ((HaloPy.init key (c, p) t0).run ops).allowance ∧
    ((HaloPy.init key (c, p) t0).run ops).allowance ≤ c := by
  exact run_bounds c p hc hp2 ops (HaloPy.init key (c, p) t0) rfl (by
    show (0 : ℚ) ≤ c
    linarith) (le_refl c) hm

/-- Witness for C4 at a concrete input: a fresh (10, 10) client runs one
non-cached request at second 0 followed by a can_request at second 3 and
stays within the bounds. -/
theorem C4_invariant_witness :
    0 ≤ ((HaloPy.init "key" (10, 10) 0).run
          [Op.req 0 ⟨200, false⟩, Op.canReq 3]).allowance ∧
    ((HaloPy.init "key" (10, 10) 0).run
          [Op.req 0 ⟨200, false⟩, Op.canReq 3]).allowance ≤ 10 := by
  refine C4_invariant_preserved "key" 10 10 0 [Op.req 0 ⟨200, false⟩, Op.canReq 3]
    (by norm_num) (by norm_num) ?_
  have e0 : pyRound (0 : ℚ) = 0 := by
    rw [pyRound]; norm_num [Int.fract]
  have s1 : (HaloPy.init "key" (10, 10) 0).step (Op.req 0 ⟨200, false⟩)
      = ⟨"key", 9, 0, (10, 10)⟩ := by
    rw [HaloPy.step, request_granted _ _ _ _ _ _ (by
      norm_num [HaloPy.check_value, HaloPy.pre_request, HaloPy.refill, HaloPy.init, pyRound,
        Int.fract])]
    simp only [HaloPy.init, e0]
    norm_num [HaloPy.refill]
  rw [times_mono, times_mono, s1]
  simp [times_mono, HaloPy.init, e0, Op.time]
